import Mathlib

/-!
Shallow embedding of the release-automation tool (interactive prompt +
semantic-version bumper + publish orchestrator) and proofs about it.

Strings in flight are modelled as `List Char` where the JavaScript source
manipulates strings, converting to `String` only at the outer interface, so
that every definition evaluates by kernel reduction.
-/

/-- JS `String.prototype.split(sep)` for a single-character separator:
splitting the empty string yields `[""]`, and separators at the ends yield
empty pieces, exactly as in JS. -/
def splitOnChar (sep : Char) : List Char → List (List Char)
  | [] => [[]]
  | c :: cs =>
    let rest := splitOnChar sep cs
    if c = sep then [] :: rest
    else
      match rest with
      | r :: rs => (c :: r) :: rs
      | [] => [[c]]

/-- JS `Array.prototype.join(sep)` for a single-character separator. -/
def joinWithChar (sep : Char) : List (List Char) → List Char
  | [] => []
  | [x] => x
  | x :: y :: xs => x ++ sep :: joinWithChar sep (y :: xs)

/-- JS `s || dflt` on an optional string: `undefined` and the empty string
are falsy and select the default. -/
def jsOrElse (s : Option (List Char)) (dflt : List Char) : List Char :=
  match s with
  | none => dflt
  | some t => if t = [] then dflt else t

/-- Numeric value of a list of decimal digit characters. -/
def digitsToNat (ds : List Char) : Nat :=
  ds.foldl (fun acc c => acc * 10 + (c.toNat - 48)) 0

/-- JS `parseInt(s, 10)`: skip leading whitespace, optional sign, longest
digit run; `NaN` (modelled as `none`) when no digit follows. -/
def jsParseInt (s : List Char) : Option Int :=
  let t := s.dropWhile Char.isWhitespace
  match t with
  | '-' :: rest =>
    let ds := rest.takeWhile Char.isDigit
    if ds = [] then none else some (-(digitsToNat ds : Int))
  | '+' :: rest =>
    let ds := rest.takeWhile Char.isDigit
    if ds = [] then none else some ((digitsToNat ds : Int))
  | _ =>
    let ds := t.takeWhile Char.isDigit
    if ds = [] then none else some ((digitsToNat ds : Int))

/-- JS `n + 1` on a number that may be `NaN` (`NaN + 1` is `NaN`). -/
def jsInc (n : Option Int) : Option Int :=
  n.map (· + 1)

/-- Decimal digits of a natural number, fuel-recursive so it reduces in the
kernel. -/
def natToCharsAux : Nat → Nat → List Char → List Char
  | 0, _, acc => acc
  | fuel + 1, n, acc =>
    let d := Char.ofNat (48 + n % 10)
    if n < 10 then d :: acc else natToCharsAux fuel (n / 10) (d :: acc)

/-- Decimal rendering of a natural number. -/
def natToChars (n : Nat) : List Char :=
  natToCharsAux (n + 1) n []

/-- JS template interpolation of a number: decimal for integers, the string
`NaN` for `NaN`. -/
def jsNumToChars : Option Int → List Char
  | none => ['N', 'a', 'N']
  | some (Int.ofNat n) => natToChars n
  | some (Int.negSucc n) => '-' :: natToChars (n + 1)

/-- The `VersionType` union of the source: `'major' | 'minor' | 'patch' | 'rc'`. -/
inductive VersionType
  | major
  | minor
  | patch
  | rc
deriving DecidableEq, Repr

/-- The record `{major, minor, patch, prerelease}` that `bumpVersion` builds
from its input string. Numeric fields are JS numbers that may be `NaN`
(`none`); `prerelease` is `string | null`. -/
structure ParsedVersion where
  major : Option Int
  minor : Option Int
  patch : Option Int
  prerelease : Option (List Char)
deriving DecidableEq, Repr

/-- The parsing prefix of `PackageManager.bumpVersion`:
`parts = version.split('.')`, `parseInt(parts[i] || '0', 10)` for the three
numeric components (the patch component first split on `-`), and the
prerelease taken from everything after the first `-` of `parts[2]`. -/
def parseVersion (version : String) : ParsedVersion :=
  let parts := splitOnChar '.' version.data
  let major := jsParseInt (jsOrElse (parts.get? 0) ['0'])
  let minor := jsParseInt (jsOrElse (parts.get? 1) ['0'])
  let patch := jsParseInt (jsOrElse ((parts.get? 2).map fun p => (splitOnChar '-' p).headD []) ['0'])
  let prerelease : Option (List Char) :=
    match parts.get? 2 with
    | none => none
    | some p => if p.contains '-' then some (joinWithChar '-' ((splitOnChar '-' p).drop 1)) else none
  { major := major, minor := minor, patch := patch, prerelease := prerelease }

/-- The bumping core of `PackageManager.bumpVersion`: the base-bump `switch`
(skipped entirely when `incrementRcOnly`), followed by the rc-suffix logic
when `isRc`. -/
def bumpCore (p : ParsedVersion) (type : VersionType) (isRc : Bool) (incrementRcOnly : Bool) : ParsedVersion :=
  let p1 :=
    if incrementRcOnly then p
    else
      match type with
      | VersionType.major =>
        { major := jsInc p.major, minor := some 0, patch := some 0, prerelease := none }
      | VersionType.minor =>
        { p with minor := jsInc p.minor, patch := some 0, prerelease := none }
      | VersionType.patch =>
        { p with patch := jsInc p.patch, prerelease := none }
      | VersionType.rc => p
  if isRc then
    match p1.prerelease with
    | some pre =>
      if pre ≠ [] ∧ List.isPrefixOf ['r', 'c', '.'] pre then
        let rcNum := jsParseInt (jsOrElse ((splitOnChar '.' pre).get? 1) ['0'])
        { p1 with prerelease := some (['r', 'c', '.'] ++ jsNumToChars (jsInc rcNum)) }
      else
        { p1 with prerelease := some ['r', 'c', '.', '1'] }
    | none => { p1 with prerelease := some ['r', 'c', '.', '1'] }
  else p1

/-- The serialization suffix of `PackageManager.bumpVersion`:
`major.minor.patch`, with `-prerelease` appended when the prerelease is
truthy (non-null and non-empty). -/
def renderVersion (p : ParsedVersion) : String :=
  let base := jsNumToChars p.major ++ '.' :: jsNumToChars p.minor ++ '.' :: jsNumToChars p.patch
  match p.prerelease with
  | some pre => if pre ≠ [] then String.mk (base ++ '-' :: pre) else String.mk base
  | none => String.mk base

/-- `PackageManager.bumpVersion(version, type, isRc, incrementRcOnly)`. -/
def bumpVersion (version : String) (type : VersionType) (isRc : Bool) (incrementRcOnly : Bool) : String :=
  renderVersion (bumpCore (parseVersion version) type isRc incrementRcOnly)

/-! ## The interactive prompt (`Prompt` class)

The keypress handler maps arrow keys to `render(-1)` / `render(1)`, which
update `this.selected = (this.selected + offset + options.length) % options.length`
(JS `%` is the truncating remainder, `Int.tmod`), and Enter to
`exit(this.keys[this.selected])`, which resolves on a truthy key and rejects
otherwise. -/

/-- A navigation keypress handled by the `Prompt` keypress handler. -/
inductive NavEvent
  | up
  | down
deriving DecidableEq, Repr

/-- The `render` offset the handler passes for each navigation key:
`up → render(-1)`, `down → render(1)`. -/
def navOffset : NavEvent → Int
  | NavEvent.up => -1
  | NavEvent.down => 1

/-- The selection update performed by `Prompt.render`:
`(selected + offset + options.length) % options.length` with JS `%`. -/
def renderSelected (selected : Int) (numOptions : Nat) (offset : Int) : Int :=
  Int.tmod (selected + offset + (numOptions : Int)) (numOptions : Int)

/-- One navigation keypress applied to the selection state. -/
def navigate (numOptions : Nat) (selected : Int) (e : NavEvent) : Int :=
  renderSelected selected numOptions (navOffset e)

/-- The selection index after a sequence of navigation keypresses. -/
def runNav (numOptions : Nat) (selected : Int) (evs : List NavEvent) : Int :=
  evs.foldl (navigate numOptions) selected

/-- Outcome of a `Prompt.select` session: the promise resolves with a key or
rejects with the (falsy) value passed to `exit`. -/
inductive PromptOutcome
  | resolved (key : String)
  | rejected (key : Option String)
deriving DecidableEq, Repr

/-- `Prompt.exit(key)`: `key ? this.resolve?.(key) : this.reject?.(key)` —
the promise resolves exactly when the key is truthy (defined and non-empty). -/
def exitStep : Option String → PromptOutcome
  | some k => if k = "" then PromptOutcome.rejected (some k) else PromptOutcome.resolved k
  | none => PromptOutcome.rejected none

/-- The Enter branch of the keypress handler:
`this.exit(this.keys[this.selected])`. -/
def onReturnKey (keys : List String) (selected : Nat) : PromptOutcome :=
  exitStep (keys.get? selected)

/-! ## The publish orchestrator (`PackageManager.publish`)

The workflow reads the manifest, snapshots `version` and `devDependencies`,
computes the target version, then in a `try` block: builds, asks for
confirmation, on proceed writes the bumped manifest without
`devDependencies`, publishes, commits. The `catch` prints
`err.message` — a statement that itself throws a TypeError, before any
revert, when the caught value is the `undefined` of a prompt rejection or
the `null` a signal-killed child's promise rejected with — then reverts the
version if it differs from the snapshot and rethrows; the `finally`
restores `devDependencies` when they were removed.
External commands and the prompt are oracles supplied by an environment. -/

/-- The manifest (`package.json`): the two fields the workflow touches plus
the remaining fields, preserved verbatim by every write. -/
structure PackageJson where
  version : String
  devDependencies : Option (List (String × String))
  rest : List (String × String)
deriving DecidableEq, Repr

/-- Result of one external command run through `DebugExec`: the exit handler
receives `code: number | null` (`null` when the child is killed by a signal)
and resolves on `code === 0`, rejecting with the payload otherwise — so a
rejection carries either a nonzero integer code (`some`) or `null` (`none`). -/
inductive StepOutcome
  | ok
  | fail (code : Option Int)
deriving DecidableEq, Repr

/-- How the confirmation `select` ends: the user picks the `publish` or
`cancel` option, or rejects the prompt (Escape / Ctrl+C). -/
inductive Confirmation
  | publishOpt
  | cancelOpt
  | rejectPrompt
deriving DecidableEq, Repr

/-- A JS value thrown out of the publish workflow: the integer exit code a
`DebugExec` promise rejected with, the `null` it rejects with for a
signal-killed child, the `undefined` of a prompt rejection, or the TypeError
raised by reading `.message` of `undefined` or `null`. -/
inductive RunError
  | exitCode (code : Int)
  | nullExit
  | undef
  | typeError
deriving DecidableEq, Repr

/-- The value a failed `DebugExec` promise rejects with: the nonzero exit
code, or `null` for a signal-killed child. -/
def rejectedValue : Option Int → RunError
  | some n => RunError.exitCode n
  | none => RunError.nullExit

/-- Oracle environment for one `publish` run: the manifest on disk and the
outcome of each external interaction, in workflow order. -/
structure PublishEnv where
  manifest : PackageJson
  buildResult : StepOutcome
  confirmation : Confirmation
  publishResult : StepOutcome
  commitResult : StepOutcome
deriving DecidableEq, Repr

/-- Observable result of a `publish` run: every `savePackageJson` write in
order, and `none` for a normal return or the thrown value. -/
structure PublishResult where
  writes : List PackageJson
  outcome : Option RunError
deriving DecidableEq, Repr

/-- `PackageManager.publish(versionType, isRc, incrementRcOnly)` against an
oracle environment, translated block by block (`try`, `catch`, `finally`). -/
def publishRun (env : PublishEnv) (versionType : VersionType) (isRc : Bool) (incrementRcOnly : Bool) : PublishResult :=
  let packageJson := env.manifest
  let originalVersion := packageJson.version
  let originalDevDependencies := packageJson.devDependencies
  let newVersion := bumpVersion originalVersion versionType isRc incrementRcOnly
  let tryRes : PackageJson × List PackageJson × Option RunError :=
    match env.buildResult with
    | StepOutcome.fail code => (packageJson, [], some (rejectedValue code))
    | StepOutcome.ok =>
      match env.confirmation with
      | Confirmation.rejectPrompt => (packageJson, [], some RunError.undef)
      | Confirmation.cancelOpt => (packageJson, [], none)
      | Confirmation.publishOpt =>
        let bumped : PackageJson :=
          { packageJson with version := newVersion, devDependencies := none }
        match env.publishResult with
        | StepOutcome.fail code => (bumped, [bumped], some (rejectedValue code))
        | StepOutcome.ok =>
          match env.commitResult with
          | StepOutcome.fail code => (bumped, [bumped], some (rejectedValue code))
          | StepOutcome.ok => (bumped, [bumped], none)
  let catchRes : PackageJson × List PackageJson × Option RunError :=
    match tryRes with
    | (pkg, writes, none) => (pkg, writes, none)
    | (pkg, writes, some RunError.undef) => (pkg, writes, some RunError.typeError)
    | (pkg, writes, some RunError.nullExit) => (pkg, writes, some RunError.typeError)
    | (pkg, writes, some e) =>
      if pkg.version ≠ originalVersion then
        let reverted := { pkg with version := originalVersion }
        (reverted, writes ++ [reverted], some e)
      else
        (pkg, writes, some e)
  match catchRes with
  | (pkg, writes, outcome) =>
    if pkg.devDependencies ≠ originalDevDependencies then
      let restored := { pkg with devDependencies := originalDevDependencies }
      { writes := writes ++ [restored], outcome := outcome }
    else
      { writes := writes, outcome := outcome }

/-- The manifest on disk after a run: the last write, or the initial
manifest when nothing was written. -/
def finalDisk (env : PublishEnv) (r : PublishResult) : PackageJson :=
  r.writes.getLastD env.manifest

/-- The concrete environment of the rejected-confirmation scenario: a clean
manifest, a successful build, and the user pressing Escape / Ctrl+C at the
confirmation prompt. -/
def rejectEnv : PublishEnv :=
  { manifest := { version := "1.0.0", devDependencies := some [("x", "1.0.0")], rest := [] },
    buildResult := StepOutcome.ok,
    confirmation := Confirmation.rejectPrompt,
    publishResult := StepOutcome.ok,
    commitResult := StepOutcome.ok }

/-- Concrete environment of the rollback scenario: original version
`1.0.0`, build and confirmation succeed, the publish command fails with
exit code 1. -/
def rollbackEnv : PublishEnv :=
  { manifest := { version := "1.0.0", devDependencies := some [("x", "1.0.0")], rest := [] },
    buildResult := StepOutcome.ok,
    confirmation := Confirmation.publishOpt,
    publishResult := StepOutcome.fail (some 1),
    commitResult := StepOutcome.ok }

/-- Concrete environment of the signal-killed publish scenario: build and
confirmation succeed, the publish child is killed by a signal, so its exit
handler sees `code = null` and the promise rejects with `null`. -/
def nullFailEnv : PublishEnv :=
  { manifest := { version := "1.0.0", devDependencies := some [("x", "1.0.0")], rest := [] },
    buildResult := StepOutcome.ok,
    confirmation := Confirmation.publishOpt,
    publishResult := StepOutcome.fail none,
    commitResult := StepOutcome.ok }

/-- Concrete environment of the success scenario: every step succeeds. -/
def successEnv : PublishEnv :=
  { manifest := { version := "1.0.0", devDependencies := some [("x", "1.0.0")], rest := [] },
    buildResult := StepOutcome.ok,
    confirmation := Confirmation.publishOpt,
    publishResult := StepOutcome.ok,
    commitResult := StepOutcome.ok }

/-! ## Helper lemmas about the selection arithmetic -/

theorem tmod_of_nonneg (a : Int) (N : Nat) (ha : 0 ≤ a) : Int.tmod a (N : Int) = a % (N : Int) := by
  obtain ⟨m, hm⟩ := Int.eq_ofNat_of_zero_le ha
  rw [hm]
  rfl

theorem navigate_eq_emod (N : Nat) (hN : 0 < N) (s : Int) (hs : 0 ≤ s) (e : NavEvent) :
    navigate N s e = (s + navOffset e + (N : Int)) % (N : Int) := by
  have hoff : -1 ≤ navOffset e := by cases e <;> simp [navOffset]
  have hsum : 0 ≤ s + navOffset e + (N : Int) := by omega
  exact tmod_of_nonneg _ N hsum

theorem navigate_bounds (N : Nat) (hN : 0 < N) (s : Int) (hs : 0 ≤ s) (e : NavEvent) :
    0 ≤ navigate N s e ∧ navigate N s e < (N : Int) := by
  rw [navigate_eq_emod N hN s hs e]
  have hN' : (0 : Int) < (N : Int) := by exact_mod_cast hN
  exact ⟨Int.emod_nonneg _ (by omega), Int.emod_lt_of_pos _ hN'⟩

theorem runNav_bounds (N : Nat) (hN : 0 < N) (evs : List NavEvent) (s : Int)
    (hs0 : 0 ≤ s) (hsN : s < (N : Int)) :
    0 ≤ runNav N s evs ∧ runNav N s evs < (N : Int) := by
  induction evs generalizing s with
  | nil => exact ⟨hs0, hsN⟩
  | cons e rest ih =>
    have h := navigate_bounds N hN s hs0 e
    exact ih (navigate N s e) h.1 h.2

theorem navigate_down_eq (N : Nat) (hN : 0 < N) (s : Int) (hs : 0 ≤ s) :
    navigate N s NavEvent.down = (s + 1) % (N : Int) := by
  rw [navigate_eq_emod N hN s hs NavEvent.down]
  show (s + 1 + (N : Int)) % (N : Int) = (s + 1) % (N : Int)
  have h : s + 1 + (N : Int) = s + 1 + (N : Int) * 1 := by ring
  rw [h, Int.add_mul_emod_self_left]

theorem runNav_replicate_down (N : Nat) (hN : 0 < N) (k : Nat) (s : Int)
    (hs0 : 0 ≤ s) (hsN : s < (N : Int)) :
    runNav N s (List.replicate k NavEvent.down) = (s + (k : Int)) % (N : Int) := by
  induction k generalizing s with
  | zero =>
    simp [runNav]
    exact (Int.emod_eq_of_lt hs0 hsN).symm
  | succ k ih =>
    rw [List.replicate_succ]
    have hb := navigate_bounds N hN s hs0 NavEvent.down
    have hstep : runNav N s (NavEvent.down :: List.replicate k NavEvent.down)
        = runNav N (navigate N s NavEvent.down) (List.replicate k NavEvent.down) := rfl
    rw [hstep, ih (navigate N s NavEvent.down) hb.1 hb.2, navigate_down_eq N hN s hs0,
      Int.emod_add_emod]
    push_cast
    ring_nf

/-! ## Claims -/

/-- C5: for every non-empty option list of length N, N "down" events from
selection 0 return the selection to 0, and after every up/down sequence the
selection stays in `[0, N)`. -/
theorem prompt_selection_wrap (N : Nat) (hN : 0 < N) (evs : List NavEvent) :
    runNav N 0 (List.replicate N NavEvent.down) = 0
    ∧ 0 ≤ runNav N 0 evs ∧ runNav N 0 evs < (N : Int) := by
  have hN' : (0 : Int) < (N : Int) := by exact_mod_cast hN
  constructor
  · rw [runNav_replicate_down N hN N 0 le_rfl hN']
    rw [zero_add, Int.emod_self]
  · exact runNav_bounds N hN evs 0 le_rfl hN'

theorem prompt_selection_wrap_witness :
    0 < 3
    ∧ (runNav 3 0 (List.replicate 3 NavEvent.down) = 0
       ∧ 0 ≤ runNav 3 0 [NavEvent.up, NavEvent.down, NavEvent.down, NavEvent.down]
       ∧ runNav 3 0 [NavEvent.up, NavEvent.down, NavEvent.down, NavEvent.down] < ((3 : Nat) : Int)) :=
  ⟨by decide, prompt_selection_wrap 3 (by decide) [NavEvent.up, NavEvent.down, NavEvent.down, NavEvent.down]⟩

/-- C7: `bumpVersion "2.0.0-rc.3" major false false = "3.0.0"` — a major
base bump increments major, zeroes minor and patch, and clears any existing
prerelease. -/
theorem bump_major_clears_prerelease :
    bumpVersion "2.0.0-rc.3" VersionType.major false false = "3.0.0"
    ∧ ∀ p : ParsedVersion, bumpCore p VersionType.major false false =
        { major := jsInc p.major, minor := some 0, patch := some 0, prerelease := none } :=
  ⟨by decide, fun _ => rfl⟩

/-- C8: `bumpVersion "1.2.3" patch true false = "1.2.4-rc.1"` — a patch bump
of a prerelease-free version with prerelease requested yields the bumped base
suffixed `rc.1`. -/
theorem bump_patch_first_rc :
    bumpVersion "1.2.3" VersionType.patch true false = "1.2.4-rc.1" := by decide

/-- C6: type `rc` has no case in the base-bump switch, so with both flags
false `bumpVersion` serializes the parsed components entirely unchanged. -/
theorem bump_rc_type_is_base_noop (v : String) :
    bumpVersion v VersionType.rc false false = renderVersion (parseVersion v)
    ∧ bumpCore (parseVersion v) VersionType.rc false false = parseVersion v :=
  ⟨rfl, rfl⟩

/-- C1: the claimed rc-counter increment does not happen: splitting the
version on `.` severs the counter from the prerelease (the parse keeps only
`rc`), so the `startsWith('rc.')` branch never fires and
`bumpVersion "1.2.4-rc.1" patch true true` returns `"1.2.4-rc.1"`, not the
claimed `"1.2.4-rc.2"`. -/
theorem bump_rc_only_counter_not_incremented :
    bumpVersion "1.2.4-rc.1" VersionType.patch true true = "1.2.4-rc.1"
    ∧ (parseVersion "1.2.4-rc.1").prerelease = some ['r', 'c']
    ∧ bumpVersion "1.2.4-rc.1" VersionType.patch true true ≠ "1.2.4-rc.2" := by
  refine ⟨by decide, by decide, by decide⟩

/-- C9: a missing numeric component parses as 0: with fewer than three
dot-separated parts the patch (and, when also missing, the minor) component
is 0 and there is no prerelease, an empty first part is 0, and concretely
`bumpVersion "1.2" patch = "1.2.1"` and `bumpVersion "" patch = "0.0.1"`. -/
theorem parse_missing_components_default (v : String) :
    ((splitOnChar '.' v.data).get? 2 = none →
      (parseVersion v).patch = some 0 ∧ (parseVersion v).prerelease = none)
    ∧ ((splitOnChar '.' v.data).get? 1 = none → (parseVersion v).minor = some 0)
    ∧ ((splitOnChar '.' v.data).get? 0 = some [] → (parseVersion v).major = some 0)
    ∧ bumpVersion "1.2" VersionType.patch false false = "1.2.1"
    ∧ bumpVersion "" VersionType.patch false false = "0.0.1" := by
  refine ⟨fun h2 => ?_, fun h1 => ?_, fun h0 => ?_, by decide, by decide⟩
  · constructor
    · simp only [parseVersion, h2]
      rfl
    · simp only [parseVersion, h2]
  · simp only [parseVersion, h1]
    rfl
  · simp only [parseVersion, h0]
    rfl

theorem parse_missing_components_default_witness :
    (splitOnChar '.' ("".data)).get? 2 = none
    ∧ (parseVersion "").patch = some 0
    ∧ (parseVersion "").minor = some 0
    ∧ (parseVersion "").major = some 0 :=
  ⟨by decide,
   ((parse_missing_components_default "").1 (by decide)).1,
   (parse_missing_components_default "").2.1 (by decide),
   (parse_missing_components_default "").2.2.1 (by decide)⟩

/-- C10: the Enter branch resolves only when the selected key is truthy: a
resolved key is never the empty string, and an empty-string key is passed to
the rejection path. -/
theorem select_resolves_only_nonempty_key (keys : List String) (sel : Nat) :
    (keys.get? sel = some "" → onReturnKey keys sel = PromptOutcome.rejected (some ""))
    ∧ ∀ k, onReturnKey keys sel = PromptOutcome.resolved k → k ≠ "" := by
  constructor
  · intro h
    unfold onReturnKey
    rw [h]
    decide
  · intro k hk hke
    subst hke
    unfold onReturnKey at hk
    cases h : keys.get? sel with
    | none =>
      rw [h] at hk
      exact PromptOutcome.noConfusion hk
    | some s =>
      rw [h] at hk
      simp only [exitStep] at hk
      by_cases hs : s = ""
      · rw [if_pos hs] at hk
        exact PromptOutcome.noConfusion hk
      · rw [if_neg hs] at hk
        injection hk with hks
        exact hs hks

theorem select_resolves_only_nonempty_key_witness :
    ([""] : List String).get? 0 = some ""
    ∧ onReturnKey [""] 0 = PromptOutcome.rejected (some "") :=
  ⟨by decide, (select_resolves_only_nonempty_key [""] 0).1 (by decide)⟩

/-- Supporting lemma: when build and confirmation succeed but the publish or
commit step rejects with an *integer* exit code, the final manifest on disk
carries the original version and the original devDependencies, and the
failing exit code is rethrown. This is the only post-rewrite failure shape
for which the rollback of the C2 claim happens; a `null` rejection (a
signal-killed child) escapes it, see the C2 theorem below. -/
theorem publish_failure_rolls_back (env : PublishEnv) (vt : VersionType)
    (isRc incOnly : Bool) (code : Int)
    (hb : env.buildResult = StepOutcome.ok)
    (hc : env.confirmation = Confirmation.publishOpt)
    (hf : env.publishResult = StepOutcome.fail (some code)
          ∨ (env.publishResult = StepOutcome.ok ∧ env.commitResult = StepOutcome.fail (some code))) :
    (finalDisk env (publishRun env vt isRc incOnly)).version = env.manifest.version
    ∧ (finalDisk env (publishRun env vt isRc incOnly)).devDependencies = env.manifest.devDependencies
    ∧ (finalDisk env (publishRun env vt isRc incOnly)).rest = env.manifest.rest
    ∧ (publishRun env vt isRc incOnly).outcome = some (RunError.exitCode code) := by
  obtain ⟨m, b, c, p, cm⟩ := env
  simp only at hb hc
  subst hb
  subst hc
  have hv : bumpVersion m.version vt isRc incOnly = m.version
      ∨ bumpVersion m.version vt isRc incOnly ≠ m.version := em _
  rcases hf with hp | ⟨hp, hcm⟩
  · subst hp
    rcases hv with hv | hv <;> rcases hd : m.devDependencies with _ | d <;>
      simp [publishRun, rejectedValue, finalDisk, hv, hd]
  · subst hp
    subst hcm
    rcases hv with hv | hv <;> rcases hd : m.devDependencies with _ | d <;>
      simp [publishRun, rejectedValue, finalDisk, hv, hd]

theorem publish_failure_rolls_back_witness :
    rollbackEnv.buildResult = StepOutcome.ok
    ∧ rollbackEnv.confirmation = Confirmation.publishOpt
    ∧ rollbackEnv.publishResult = StepOutcome.fail (some 1)
    ∧ (finalDisk rollbackEnv (publishRun rollbackEnv VersionType.minor false false)).version = "1.0.0"
    ∧ (finalDisk rollbackEnv (publishRun rollbackEnv VersionType.minor false false)).devDependencies
        = some [("x", "1.0.0")]
    ∧ (publishRun rollbackEnv VersionType.minor false false).outcome = some (RunError.exitCode 1) :=
  ⟨rfl, rfl, rfl,
   (publish_failure_rolls_back rollbackEnv VersionType.minor false false 1 rfl rfl (Or.inl rfl)).1,
   (publish_failure_rolls_back rollbackEnv VersionType.minor false false 1 rfl rfl (Or.inl rfl)).2.1,
   (publish_failure_rolls_back rollbackEnv VersionType.minor false false 1 rfl rfl (Or.inl rfl)).2.2.2⟩

/-- C2: the claimed universal post-rewrite rollback fails for a
signal-killed publish: `DebugExec`'s exit handler sees `code = null` and
rejects with `null`, and the catch block throws a TypeError from
`err.message` before reaching the revert, so the bumped version `1.1.0`
stays on disk (the finally still restores devDependencies) and the
TypeError, not the original failure, propagates to the caller. At the
integer-exit-code environment the rollback does behave as the claim says
(last two conjuncts). -/
theorem publish_null_rejection_skips_rollback :
    nullFailEnv.manifest.version = "1.0.0"
    ∧ bumpVersion "1.0.0" VersionType.minor false false = "1.1.0"
    ∧ (finalDisk nullFailEnv (publishRun nullFailEnv VersionType.minor false false)).version = "1.1.0"
    ∧ (finalDisk nullFailEnv (publishRun nullFailEnv VersionType.minor false false)).devDependencies
        = some [("x", "1.0.0")]
    ∧ (publishRun nullFailEnv VersionType.minor false false).outcome = some RunError.typeError
    ∧ (finalDisk rollbackEnv (publishRun rollbackEnv VersionType.minor false false)).version = "1.0.0"
    ∧ (publishRun rollbackEnv VersionType.minor false false).outcome = some (RunError.exitCode 1) := by
  refine ⟨rfl, by decide, by decide, by decide, by decide, by decide, by decide⟩

/-- C3: when every step succeeds, the final manifest on disk carries the new
target version and the original devDependencies — the restoration runs on
the success path too — and nothing is thrown. -/
theorem publish_success_restores_devdeps (env : PublishEnv) (vt : VersionType)
    (isRc incOnly : Bool)
    (hb : env.buildResult = StepOutcome.ok)
    (hc : env.confirmation = Confirmation.publishOpt)
    (hp : env.publishResult = StepOutcome.ok)
    (hcm : env.commitResult = StepOutcome.ok) :
    (finalDisk env (publishRun env vt isRc incOnly)).version = bumpVersion env.manifest.version vt isRc incOnly
    ∧ (finalDisk env (publishRun env vt isRc incOnly)).devDependencies = env.manifest.devDependencies
    ∧ (finalDisk env (publishRun env vt isRc incOnly)).rest = env.manifest.rest
    ∧ (publishRun env vt isRc incOnly).outcome = none := by
  obtain ⟨m, b, c, p, cm⟩ := env
  simp only at hb hc hp hcm
  subst hb
  subst hc
  subst hp
  subst hcm
  rcases hd : m.devDependencies with _ | d <;> simp [publishRun, finalDisk, hd]

theorem publish_success_restores_devdeps_witness :
    successEnv.buildResult = StepOutcome.ok
    ∧ successEnv.confirmation = Confirmation.publishOpt
    ∧ successEnv.publishResult = StepOutcome.ok
    ∧ successEnv.commitResult = StepOutcome.ok
    ∧ (finalDisk successEnv (publishRun successEnv VersionType.minor false false)).version
        = bumpVersion "1.0.0" VersionType.minor false false
    ∧ (finalDisk successEnv (publishRun successEnv VersionType.minor false false)).devDependencies
        = some [("x", "1.0.0")]
    ∧ (publishRun successEnv VersionType.minor false false).outcome = none :=
  ⟨rfl, rfl, rfl, rfl,
   (publish_success_restores_devdeps successEnv VersionType.minor false false rfl rfl rfl rfl).1,
   (publish_success_restores_devdeps successEnv VersionType.minor false false rfl rfl rfl rfl).2.1,
   (publish_success_restores_devdeps successEnv VersionType.minor false false rfl rfl rfl rfl).2.2.2⟩

/-- C4: rejecting the confirmation prompt does leave the disk untouched
(no write at all), but the run is not quiet: the caught `undefined` makes
the catch block itself throw a TypeError, which propagates to the caller —
only the explicit cancel option ends the workflow quietly. -/
theorem publish_reject_not_quiet :
    (publishRun rejectEnv VersionType.patch false false).writes = []
    ∧ finalDisk rejectEnv (publishRun rejectEnv VersionType.patch false false) = rejectEnv.manifest
    ∧ (publishRun rejectEnv VersionType.patch false false).outcome = some RunError.typeError
    ∧ (publishRun { rejectEnv with confirmation := Confirmation.cancelOpt } VersionType.patch false false).writes = []
    ∧ (publishRun { rejectEnv with confirmation := Confirmation.cancelOpt } VersionType.patch false false).outcome = none := by
  refine ⟨by decide, by decide, by decide, by decide, by decide⟩
